import Mathlib

/-
Verification of the twitter_sentiment ingestion / dedup / alerting pipeline.

Shallow embedding of the repository's components:
  - twitter_sentiment/components/storage.py   (WeaviateStorage)
  - twitter_sentiment/components/analyzer.py  (SentimentAnalyzer)
  - twitter_sentiment/components/notifier.py  (NotificationService)
  - twitter_sentiment/components/monitor.py   (TwitterMonitor)
  - twitter_sentiment/components/scheduler.py (ScheduleManager)

External collaborators (the Weaviate backend, the OpenAI completion call,
the Twitter fetch API, the Telegram transport, the system clock) are
modelled as explicit oracle parameters; the repository's own logic is
translated line by line.
-/

set_option autoImplicit false

namespace TwitterSentiment

/-- A tweet's author object, as consumed by `store_tweet`
(storage.py lines 161-169: the code reads `userName` / `name` from the
author dict, with fallbacks for missing keys; we model a well-formed
author object carrying both fields). -/
structure Author where
  userName : String
  name : String
deriving DecidableEq

/-- A raw tweet record as returned by the fetch API and consumed by
`store_tweet` (storage.py lines 156-177): `id`, `text`, `author`,
`createdAt`, `retweetCount`, `likeCount`.  We model a well-formed record
in which every field the code reads is present and well-typed. -/
structure TweetData where
  id : String
  text : String
  author : Author
  createdAt : String
  retweetCount : Int
  likeCount : Int
deriving DecidableEq

/-! ## Timestamp conversion (storage.py `_convert_timestamp_to_rfc3339`, lines 99-142) -/

/-- Oracles for the two pieces of ambient behaviour used by
`_convert_timestamp_to_rfc3339`:
`strptimeFb ts` models the composite
`datetime.strptime(ts, "%a %b %d %H:%M:%S %z %Y").strftime("%Y-%m-%dT%H:%M:%SZ")`
on the fallback path (storage.py lines 136-137), `none` meaning the parse
raises; `nowStr` models
`datetime.now(timezone.utc).strftime("%Y-%m-%dT%H:%M:%SZ")`
(storage.py line 142). -/
structure TimeEnv where
  strptimeFb : String → Option String
  nowStr : String

/-- Numeric value of a two-digit string, from its two characters. -/
def digitVal2 (a b : Char) : Nat := (a.toNat - 48) * 10 + (b.toNat - 48)

/-- Gregorian leap-year rule, as implemented by Python's `datetime`. -/
def isLeapYear (y : Nat) : Bool := (y % 4 == 0 && y % 100 != 0) || (y % 400 == 0)

/-- Number of days in a month, as validated by Python's `datetime`. -/
def daysInMonth (y m : Nat) : Nat :=
  if m = 2 then (if isLeapYear y then 29 else 28)
  else if m = 4 ∨ m = 6 ∨ m = 9 ∨ m = 11 then 30
  else 31

/-- Models the check `datetime.fromisoformat(timestamp.replace('Z', '+00:00'))`
(storage.py line 112) on this system's canonical wire format
`YYYY-MM-DDTHH:MM:SSZ`: true exactly when the string has that shape with a
valid calendar date and time of day.  (Python's `fromisoformat` also
accepts other ISO-8601 variants; every timestamp this pipeline itself
writes — see `store_tweet` — is in the canonical shape, which is the
domain the claims quantify over.) -/
def isCanonicalRFC3339 (s : String) : Bool :=
  match s.toList with
  | [y1, y2, y3, y4, '-', m1, m2, '-', d1, d2, 'T',
     h1, h2, ':', mi1, mi2, ':', s1, s2, 'Z'] =>
    ([y1, y2, y3, y4, m1, m2, d1, d2, h1, h2, mi1, mi2, s1, s2].all Char.isDigit) &&
    (let y := digitVal2 y1 y2 * 100 + digitVal2 y3 y4
     let mo := digitVal2 m1 m2
     let d := digitVal2 d1 d2
     decide (1 ≤ mo ∧ mo ≤ 12 ∧ 1 ≤ d ∧ d ≤ daysInMonth y mo ∧
             digitVal2 h1 h2 ≤ 23 ∧ digitVal2 mi1 mi2 ≤ 59 ∧ digitVal2 s1 s2 ≤ 59))
  | _ => false

/-- The six capture groups of the regex
`\w{3} (\w{3}) (\d{1,2}) (\d{2}):(\d{2}):(\d{2}) \+0000 (\d{4})`
(storage.py line 119). -/
structure TwMatch where
  month : String
  day : String
  hour : String
  minute : String
  second : String
  year : String
deriving DecidableEq

/-- A regex `\w` word character (ASCII fragment, which covers this
pipeline's inputs): alphanumeric or underscore. -/
def isWordChar (c : Char) : Bool := c.isAlphanum || c == '_'

/-- Tail of the regex after the day group:
`(\d{2}):(\d{2}):(\d{2}) \+0000 (\d{4})` followed by anything
(`re.match` anchors only at the start). -/
def parseAfterDay (m d : List Char) (cs : List Char) : Option TwMatch :=
  match cs with
  | h1 :: h2 :: ':' :: mi1 :: mi2 :: ':' :: s1 :: s2 :: ' ' ::
    '+' :: '0' :: '0' :: '0' :: '0' :: ' ' :: y1 :: y2 :: y3 :: y4 :: _ =>
    if [h1, h2, mi1, mi2, s1, s2, y1, y2, y3, y4].all Char.isDigit then
      some { month := String.mk m, day := String.mk d,
             hour := String.mk [h1, h2], minute := String.mk [mi1, mi2],
             second := String.mk [s1, s2], year := String.mk [y1, y2, y3, y4] }
    else none
  | _ => none

/-- The day group `(\d{1,2})` followed by a space: greedily try two
digits; on failure to find the following space, backtrack to one digit
(exactly the regex engine's behaviour for `\d{1,2} `). -/
def parseDayOn (m : List Char) (cs : List Char) : Option TwMatch :=
  match cs with
  | d1 :: d2 :: rest =>
    if d1.isDigit then
      if d2.isDigit then
        match rest with
        | ' ' :: rest2 => parseAfterDay m [d1, d2] rest2
        | _ => none
      else if d2 == ' ' then parseAfterDay m [d1] rest
      else none
    else none
  | _ => none

/-- Model of `re.match` of
`\w{3} (\w{3}) (\d{1,2}) (\d{2}):(\d{2}):(\d{2}) \+0000 (\d{4})`
against the input (storage.py lines 119-120), returning the capture
groups on success. -/
def twitterMatch (s : String) : Option TwMatch :=
  match s.toList with
  | w1 :: w2 :: w3 :: ' ' :: m1 :: m2 :: m3 :: ' ' :: rest =>
    if [w1, w2, w3, m1, m2, m3].all isWordChar then parseDayOn [m1, m2, m3] rest
    else none
  | _ => none

/-- Model of `month_map.get(month, "01")` (storage.py lines 123-130): the twelve
English month abbreviations, any other captured word defaulting to "01". -/
def monthMap (m : String) : String :=
  match m with
  | "Jan" => "01" | "Feb" => "02" | "Mar" => "03" | "Apr" => "04"
  | "May" => "05" | "Jun" => "06" | "Jul" => "07" | "Aug" => "08"
  | "Sep" => "09" | "Oct" => "10" | "Nov" => "11" | "Dec" => "12"
  | _ => "01"

/-- Model of `day.zfill(2)` (storage.py line 131): left-pad with zeros to width 2. -/
def zfill2 (s : String) : String :=
  String.mk (List.replicate (2 - s.length) '0') ++ s

/-- Model of `_convert_timestamp_to_rfc3339` (storage.py lines 99-142):
if the input already parses as ISO (canonical wire format), return it
unchanged; else if the Twitter-legacy regex matches, rebuild the
timestamp from the capture groups via `month_map` and `zfill`; else try
`strptime` (oracle); on total failure substitute the current time. -/
def convert_timestamp_to_rfc3339 (env : TimeEnv) (timestamp : String) : String :=
  if isCanonicalRFC3339 timestamp then timestamp
  else
    match twitterMatch timestamp with
    | some g =>
      g.year ++ "-" ++ monthMap g.month ++ "-" ++ zfill2 g.day ++ "T" ++
        g.hour ++ ":" ++ g.minute ++ ":" ++ g.second ++ "Z"
    | none =>
      match env.strptimeFb timestamp with
      | some out => out
      | none => env.nowStr

/-! ## Dedup store (storage.py `store_tweet` / `store_tweets_batch`, lines 144-254) -/

/-- The properties object written to the `TweetSentiment` class
(storage.py lines 182-192). -/
structure SRecord where
  tweet_text : String
  sentiment : String
  timestamp : String
  source : String
  tweet_id : String
  author_username : String
  author_name : String
  retweet_count : Int
  like_count : Int
deriving DecidableEq

/-- The Weaviate backend state, keyed by the deterministic object key:
`objects` is the stored map (create rejects an already-present key with
`ObjectAlreadyExistsException`, storage.py line 203); `failing` marks
keys on which `create` raises a non-duplicate backend error
(storage.py lines 208-214), modelling environmental storage failures. -/
structure StoreState where
  objects : String → Option SRecord
  failing : String → Bool

/-- The deterministic identity key
`uuid.uuid5(uuid.NAMESPACE_URL, f"twitter:\x7btweet_id\x7d")`
(storage.py line 180).  `uuid5` is a fixed deterministic function of its
name argument, so we model the key by the name string itself; the claims
use only that the key is a function of the tweet id. -/
def identityKey (tweetId : String) : String := "twitter:" ++ tweetId

/-- The key `store_tweet` derives for a tweet record: a function of
`tweet_data.id` alone (storage.py lines 157, 180). -/
def storeKey (t : TweetData) : String := identityKey t.id

/-- The properties object assembled by `store_tweet` before the create
attempt (storage.py lines 160-192): author extraction, timestamp
normalization, engagement counts. -/
def mkRecord (env : TimeEnv) (tweet_data : TweetData) (sentiment : String) : SRecord :=
  let username := tweet_data.author.userName
  let author_name := tweet_data.author.name
  let timestamp := convert_timestamp_to_rfc3339 env tweet_data.createdAt
  { tweet_text := tweet_data.text, sentiment := sentiment, timestamp := timestamp,
    source := "@" ++ username, tweet_id := tweet_data.id,
    author_username := username, author_name := author_name,
    retweet_count := tweet_data.retweetCount, like_count := tweet_data.likeCount }

/-- Model of `store_tweet` (storage.py lines 144-218): build the properties
object, derive the deterministic key from the tweet id, and attempt the
create; returns "new" on a fresh insert, "existing" when the key is
already present (duplicate detected by the backend), "error" on a
non-duplicate backend failure. -/
def store_tweet (env : TimeEnv) (st : StoreState) (tweet_data : TweetData)
    (sentiment : String) : String × StoreState :=
  let key := storeKey tweet_data
  let properties := mkRecord env tweet_data sentiment
  if st.failing key then ("error", st)
  else
    match st.objects key with
    | some _ => ("existing", st)
    | none => ("new", { st with objects := Function.update st.objects key (some properties) })

/-- The statistics dictionary built by `store_tweets_batch`
(storage.py lines 229-234). -/
structure Stats where
  new_tweets : Nat
  existing_tweets : Nat
  errors : Nat
  total_processed : Nat
deriving DecidableEq

/-- The accumulation loop of `store_tweets_batch`
(storage.py lines 236-244): store each (tweet, sentiment) pair and bump
the counter matching the three-way result ("error" being the catch-all
else branch). -/
def storeTweetsBatchGo (env : TimeEnv) : Stats → StoreState →
    List (TweetData × String) → Stats × StoreState
  | stats, st, [] => (stats, st)
  | stats, st, (t, s) :: rest =>
    let r := store_tweet env st t s
    let stats' :=
      if r.fst = "new" then { stats with new_tweets := stats.new_tweets + 1 }
      else if r.fst = "existing" then { stats with existing_tweets := stats.existing_tweets + 1 }
      else { stats with errors := stats.errors + 1 }
    storeTweetsBatchGo env stats' r.snd rest

/-- Model of `store_tweets_batch` (storage.py lines 220-254): initialize stats
with `total_processed = len(analyzed_tweets)` and the three counters at
zero, then run the accumulation loop. -/
def store_tweets_batch (env : TimeEnv) (st : StoreState)
    (analyzed_tweets : List (TweetData × String)) : Stats × StoreState :=
  storeTweetsBatchGo env
    { new_tweets := 0, existing_tweets := 0, errors := 0,
      total_processed := analyzed_tweets.length } st analyzed_tweets

/-! ## Classifier (analyzer.py `analyze_tweet`, lines 44-76) -/

/-- Python `str.strip()`: drop whitespace from both ends (ASCII
whitespace, which covers the completion texts at issue). -/
def pyStrip (s : String) : String :=
  String.mk (((s.toList.dropWhile Char.isWhitespace).reverse.dropWhile
    Char.isWhitespace).reverse)

/-- Python `str.lower()`: lowercase character-wise (ASCII fragment). -/
def pyLower (s : String) : String :=
  String.mk (s.toList.map Char.toLower)

/-- Model of `analyze_tweet` (analyzer.py lines 44-76), with the OpenAI completion
call modelled as an oracle: `Except.error` is any exception raised by the
invocation (caught at line 74, returning "neutral"); `Except.ok choices`
is the list of completion choice texts, `response.choices[0].text` being
its head (an empty list makes the index raise, landing in the same
handler).  The raw text is stripped and lowercased
(`response.choices[0].text.strip().lower()`, line 66), and any result
outside the closed taxonomy is normalized to "neutral" (lines 69-73). -/
def analyze_tweet (response : Except Unit (List String)) : String :=
  match response with
  | .error _ => "neutral"
  | .ok choices =>
    match choices with
    | [] => "neutral"
    | c :: _ =>
      let sentiment := pyLower (pyStrip c)
      if sentiment = "positive" ∨ sentiment = "neutral" ∨ sentiment = "negative" then sentiment
      else "neutral"

/-! ## Alert gate (notifier.py `NotificationService`, lines 38-137) -/

/-- One record as returned by the store query and consumed by
`check_sentiment_threshold` (notifier.py line 52 reads
`s.get("sentiment")`, which is `none` when the key is absent). -/
structure SentimentItem where
  sentiment : Option String
deriving DecidableEq

/-- The dictionary returned by `check_sentiment_threshold`
(notifier.py lines 48-62): the under-10 branch carries only
`triggered` and `reason`; the evaluated branch carries the counts and
the percentage. -/
structure ThresholdResult where
  triggered : Bool
  reason : Option String
  positive_count : Option Nat
  total_count : Option Nat
  percentage : Option ℚ
deriving DecidableEq

/-- Model of `round(x, 1)` on the exact rational value: round to one
decimal place (notifier.py line 61).  Python rounds the nearest binary
double with bankers' tie-breaking; the model rounds the exact rational
half-up.  The two agree whenever the value at one decimal is exact — in
particular on every sample of the size (10) this pipeline queries, where
the percentage is a whole number — and may differ only on exact .x5
ties of other sample sizes. -/
def roundTo1 (q : ℚ) : ℚ := ((round (q * 10) : ℤ) : ℚ) / 10

/-- Model of `sum(1 for s in sentiments if s.get("sentiment") == "positive")`
(notifier.py line 52). -/
def countPositive (sentiments : List SentimentItem) : Nat :=
  (sentiments.filter (fun s => s.sentiment == some "positive")).length

/-- Model of `check_sentiment_threshold` (notifier.py lines 38-62): fewer than 10
records short-circuits to a non-triggering "Not enough data" result;
otherwise `triggered = positive_count >= threshold`, with the counts and
the percentage `round(positive_count / total * 100, 1)`. -/
def check_sentiment_threshold (sentiments : List SentimentItem) (threshold : ℤ) :
    ThresholdResult :=
  if sentiments.length < 10 then
    { triggered := false, reason := some "Not enough data",
      positive_count := none, total_count := none, percentage := none }
  else
    let positive_count := countPositive sentiments
    { triggered := decide ((positive_count : ℤ) ≥ threshold), reason := none,
      positive_count := some positive_count, total_count := some sentiments.length,
      percentage := some (roundTo1 ((positive_count : ℚ) / (sentiments.length : ℚ) * 100)) }

/-- Static configuration of `NotificationService` (notifier.py
lines 15-36): the configured `notification_method`, and whether both
Telegram credentials (`telegram_token`, `telegram_chat_id`) are present. -/
structure NotifierConfig where
  notification_method : String
  hasTelegramCreds : Bool

/-- Mutable state of `NotificationService`: the `last_notification_time`
dict (notifier.py line 31), read through `.get(keyword, 0)`
(line 74), so we model it as a total map with default 0. -/
structure NotifierState where
  last_notification_time : String → ℚ

/-- Model of `self.min_interval = 3600` (notifier.py line 34). -/
def min_interval : ℚ := 3600

/-- Model of `_can_send_notification` (notifier.py lines 64-79): if the elapsed
time since the recorded last notification for this keyword reaches the
minimum interval, record "now" for the keyword and allow; otherwise deny
and leave the state untouched. -/
def can_send_notification (now : ℚ) (st : NotifierState) (keyword : String) :
    Bool × NotifierState :=
  let last_time := st.last_notification_time keyword
  if now - last_time ≥ min_interval then
    (true, ⟨Function.update st.last_notification_time keyword now⟩)
  else
    (false, st)

/-- Model of `_send_telegram` (notifier.py lines 81-107), transport modelled as an
oracle: with missing credentials it returns false without any HTTP call;
with credentials it performs one HTTP attempt whose success is the
oracle `transportOk`.  The second component counts transport attempts. -/
def send_telegram (cfg : NotifierConfig) (transportOk : Bool) : Bool × Nat :=
  if cfg.hasTelegramCreds then (transportOk, 1) else (false, 0)

/-- Observable side effects of one `send_notification` call: console
messages printed (notifier.py line 129) and Telegram transport attempts. -/
structure NotifyTrace where
  console : List String
  telegramAttempts : Nat
deriving DecidableEq

/-- Model of `send_notification` (notifier.py lines 109-137): the cooldown gate
runs first and a denial returns false with no channel touched; otherwise
the console branch fires when the `channel` argument or the configured
`notification_method` is "all"/"console", and the Telegram branch fires
when either is "all"/"telegram"; overall success is true if at least one
channel succeeded. -/
def send_notification (cfg : NotifierConfig) (now : ℚ) (transportOk : Bool)
    (st : NotifierState) (message keyword channel : String) :
    Bool × NotifierState × NotifyTrace :=
  match can_send_notification now st keyword with
  | (false, st') => (false, st', ⟨[], 0⟩)
  | (true, st') =>
    let consoleOn := channel == "all" || channel == "console" ||
      cfg.notification_method == "all" || cfg.notification_method == "console"
    let telegramOn := channel == "all" || channel == "telegram" ||
      cfg.notification_method == "all" || cfg.notification_method == "telegram"
    let consoleTrace := if consoleOn then [message] else []
    if telegramOn then
      let tg := send_telegram cfg transportOk
      (consoleOn || tg.fst, st', ⟨consoleTrace, tg.snd⟩)
    else
      (consoleOn, st', ⟨consoleTrace, 0⟩)

/-- One `send_notification` invocation in a call history: wall-clock
time, Telegram transport outcome oracle, and the three string arguments. -/
structure NotifyCall where
  time : ℚ
  transportOk : Bool
  message : String
  keyword : String
  channel : String

/-- Fold a history of `send_notification` calls through the notifier
state. -/
def runNotifyCalls (cfg : NotifierConfig) (st : NotifierState) :
    List NotifyCall → NotifierState
  | [] => st
  | c :: rest =>
    runNotifyCalls cfg
      (send_notification cfg c.time c.transportOk st c.message c.keyword c.channel).snd.fst rest

/-! ## Fetch adapter (monitor.py `process_accounts`, lines 117-156) -/

/-- Mutable state of `TwitterMonitor`: the `last_tweet_ids` dict
(monitor.py line 29), `none` meaning no cursor recorded for the account
(`.get(account)` at line 134). -/
structure MonitorState where
  last_tweet_ids : String → Option String

/-- The body of the per-account loop in `process_accounts`
(monitor.py lines 132-149), with `fetch_tweets` modelled as an oracle
from (account, since-cursor) to the returned tweet list (the network
call body is out of scope; on failure it returns `[]`, lines 98-115).
If tweets were returned, the cursor advances to the id of the first
(most recent) returned tweet (line 146: `tweets[0]["id"]`; our typed
`TweetData` always carries an id, so the guard at line 145 holds) and
the tweets are appended; otherwise the state is untouched. -/
def processAccount (fetch : String → Option String → List TweetData)
    (st : MonitorState) (account : String) : MonitorState × List TweetData :=
  let since_id := st.last_tweet_ids account
  let tweets := fetch account since_id
  match tweets with
  | [] => (st, [])
  | t :: _ =>
    (⟨Function.update st.last_tweet_ids account (some t.id)⟩, tweets)

/-- Sequential processing of one batch of accounts (the inner loop of
`process_accounts`, monitor.py lines 132-149), threading the cursor
state and concatenating the fetched tweets. -/
def processBatchList (fetch : String → Option String → List TweetData)
    (st : MonitorState) : List String → MonitorState × List TweetData
  | [] => (st, [])
  | a :: rest =>
    let step := processAccount fetch st a
    let restRes := processBatchList fetch step.fst rest
    (restRes.fst, step.snd ++ restRes.snd)

/-- The batching loop of `process_accounts` (monitor.py lines 129-153)
with batch size `bs1 + 1` (the Python `range(0, len, batch_size)` loop
requires a positive batch size): process `batch_size` accounts, then the
rest (the `time.sleep(2)` between batches has no effect on state). -/
def processAccountsAux (fetch : String → Option String → List TweetData)
    (bs1 : Nat) (st : MonitorState) (accounts : List String) :
    MonitorState × List TweetData :=
  if h : accounts = [] then (st, [])
  else
    let step := processBatchList fetch st (accounts.take (bs1 + 1))
    let restRes := processAccountsAux fetch bs1 step.fst (accounts.drop (bs1 + 1))
    (restRes.fst, step.snd ++ restRes.snd)
termination_by accounts.length
decreasing_by
  simp only [List.length_drop]
  exact Nat.sub_lt (List.length_pos.mpr h) (Nat.succ_pos bs1)

/-- Model of `process_accounts` with the default `batch_size = 5`
(monitor.py line 117). -/
def process_accounts (fetch : String → Option String → List TweetData)
    (st : MonitorState) (accounts : List String) : MonitorState × List TweetData :=
  processAccountsAux fetch 4 st accounts

/-! ## Pipeline coordinator (scheduler.py `_monitoring_job`, lines 40-85) -/

/-- Oracles for the three stages of one ingestion cycle, each of which
may raise (`Except.error`, caught by the handler at scheduler.py
line 82): `fetchResult` is `monitor.process_accounts()`,
`analyzeResult` is `analyzer.analyze_batch(tweets)`, `storeResult` is
`storage.store_tweets_batch(analyzed_tweets)`. -/
structure CycleEnv where
  fetchResult : Except Unit (List TweetData)
  analyzeResult : List TweetData → Except Unit (List (TweetData × String))
  storeResult : List (TweetData × String) → Except Unit Stats

/-- How many times each pipeline stage was invoked during one
`_monitoring_job` call. -/
structure CycleTrace where
  fetchCalls : Nat
  classifyCalls : Nat
  storeCalls : Nat
deriving DecidableEq

/-- Model of `_monitoring_job` (scheduler.py lines 40-85).  Input: whether the
`monitor_lock` is currently held by a running cycle.  Output: the lock
state after the call returns, and the stage-call trace.  The
non-blocking acquire (line 43) fails when the lock is held: the job
returns immediately with no stage called and the lock still held by its
owner.  Otherwise the cycle body runs under try/except/finally: an
exception in any stage is caught (line 82), the early return on zero
tweets (lines 53-55) skips classify and store, and the `finally` block
(line 84) releases the lock on every path. -/
def monitoring_job (env : CycleEnv) (lockHeld : Bool) : Bool × CycleTrace :=
  if lockHeld then
    (true, ⟨0, 0, 0⟩)
  else
    match env.fetchResult with
    | .error _ => (false, ⟨1, 0, 0⟩)
    | .ok tweets =>
      if tweets.isEmpty then (false, ⟨1, 0, 0⟩)
      else
        match env.analyzeResult tweets with
        | .error _ => (false, ⟨1, 1, 0⟩)
        | .ok analyzed =>
          match env.storeResult analyzed with
          | .error _ => (false, ⟨1, 1, 1⟩)
          | .ok _ => (false, ⟨1, 1, 1⟩)

/-! ## Storage theorems -/

theorem store_tweet_new (env : TimeEnv) (st : StoreState) (t : TweetData) (s : String)
    (hf : st.failing (storeKey t) = false) (ho : st.objects (storeKey t) = none) :
    store_tweet env st t s =
      ("new",
        { st with
            objects := Function.update st.objects (storeKey t) (some (mkRecord env t s)) }) := by
  unfold store_tweet
  simp [hf, ho]

theorem store_tweet_existing (env : TimeEnv) (st : StoreState) (t : TweetData) (s : String)
    (r : SRecord) (hf : st.failing (storeKey t) = false)
    (ho : st.objects (storeKey t) = some r) :
    store_tweet env st t s = ("existing", st) := by
  unfold store_tweet
  simp [hf, ho]

/-- C1: Storage idempotence.  Starting from a store that is healthy on
the id's key and holds no record for the id, storing a post returns
"new"; a second `store_tweet` with the same post id — any text, author,
timestamp or sentiment — returns "existing" and leaves the store state
exactly as it was after the first call; the identity key is a function
of the post id alone; and afterwards exactly one stored record carries
that id (it sits at the id's identity key, and no other key holds a
record with that id). -/
theorem C1_storage_idempotence (env : TimeEnv) (st : StoreState)
    (t1 t2 : TweetData) (s1 s2 : String)
    (hid : t2.id = t1.id)
    (hfresh : st.objects (identityKey t1.id) = none)
    (hok : st.failing (identityKey t1.id) = false)
    (hnone : ∀ k r, st.objects k = some r → r.tweet_id ≠ t1.id) :
    (store_tweet env st t1 s1).fst = "new" ∧
    store_tweet env (store_tweet env st t1 s1).snd t2 s2 =
      ("existing", (store_tweet env st t1 s1).snd) ∧
    (∀ u v : TweetData, u.id = v.id → storeKey u = storeKey v) ∧
    (∃ r, (store_tweet env st t1 s1).snd.objects (identityKey t1.id) = some r ∧
        r.tweet_id = t1.id) ∧
    (∀ k r, (store_tweet env st t1 s1).snd.objects k = some r →
        r.tweet_id = t1.id → k = identityKey t1.id) := by
  have hk1 : storeKey t1 = identityKey t1.id := rfl
  have hk2 : storeKey t2 = identityKey t1.id := by
    unfold storeKey; rw [hid]
  have e1 := store_tweet_new env st t1 s1 (by rw [hk1]; exact hok) (by rw [hk1]; exact hfresh)
  rw [hk1] at e1
  refine ⟨by rw [e1], ?_, ?_, ?_, ?_⟩
  · apply store_tweet_existing env _ t2 s2 (mkRecord env t1 s1)
    · rw [e1, hk2]; exact hok
    · rw [e1, hk2]; exact Function.update_same _ _ _
  · intro u v huv
    unfold storeKey
    rw [huv]
  · exact ⟨mkRecord env t1 s1, by rw [e1]; exact Function.update_same _ _ _, rfl⟩
  · intro k r hkr hrid
    by_contra hne
    rw [e1] at hkr
    have hkr2 : Function.update st.objects (identityKey t1.id)
        (some (mkRecord env t1 s1)) k = some r := hkr
    rw [Function.update_noteq hne] at hkr2
    exact hnone k r hkr2 hrid

/-- C1 witness: a concrete two-store run from the empty store — the
first call returns "new", the second (same id, different text, author,
timestamp and sentiment) returns "existing". -/
theorem C1_storage_idempotence_witness :
    (store_tweet ⟨fun _ => none, "NOW"⟩ ⟨fun _ => none, fun _ => false⟩
      ⟨"1", "btc up", ⟨"alice", "Alice"⟩, "Thu May 15 22:00:22 +0000 2025", 2, 3⟩
      "positive").fst = "new" ∧
    (store_tweet ⟨fun _ => none, "NOW"⟩
      (store_tweet ⟨fun _ => none, "NOW"⟩ ⟨fun _ => none, fun _ => false⟩
        ⟨"1", "btc up", ⟨"alice", "Alice"⟩, "Thu May 15 22:00:22 +0000 2025", 2, 3⟩
        "positive").snd
      ⟨"1", "different text", ⟨"bob", "Bob"⟩, "bad ts", 0, 0⟩ "negative").fst =
      "existing" := by
  have h := C1_storage_idempotence ⟨fun _ => none, "NOW"⟩ ⟨fun _ => none, fun _ => false⟩
    ⟨"1", "btc up", ⟨"alice", "Alice"⟩, "Thu May 15 22:00:22 +0000 2025", 2, 3⟩
    ⟨"1", "different text", ⟨"bob", "Bob"⟩, "bad ts", 0, 0⟩
    "positive" "negative" rfl rfl rfl (by intro k r hkr; simp at hkr)
  exact ⟨h.1, by rw [h.2.1]⟩

theorem storeTweetsBatchGo_stats (env : TimeEnv) :
    ∀ (l : List (TweetData × String)) (stats : Stats) (st : StoreState),
    (storeTweetsBatchGo env stats st l).fst.new_tweets +
      (storeTweetsBatchGo env stats st l).fst.existing_tweets +
      (storeTweetsBatchGo env stats st l).fst.errors =
      stats.new_tweets + stats.existing_tweets + stats.errors + l.length ∧
    (storeTweetsBatchGo env stats st l).fst.total_processed = stats.total_processed := by
  intro l
  induction l with
  | nil =>
    intro stats st
    simp [storeTweetsBatchGo]
  | cons p rest ih =>
    intro stats st
    obtain ⟨t, s⟩ := p
    simp only [storeTweetsBatchGo]
    by_cases h1 : (store_tweet env st t s).fst = "new"
    · simp only [h1, if_pos, if_true]
      obtain ⟨ihA, ihB⟩ := ih { stats with new_tweets := stats.new_tweets + 1 }
        (store_tweet env st t s).snd
      refine ⟨?_, ihB⟩
      rw [ihA]
      simp
      omega
    · rw [if_neg h1]
      by_cases h2 : (store_tweet env st t s).fst = "existing"
      · simp only [h2, if_true]
        obtain ⟨ihA, ihB⟩ := ih { stats with existing_tweets := stats.existing_tweets + 1 }
          (store_tweet env st t s).snd
        refine ⟨?_, ihB⟩
        rw [ihA]
        simp
        omega
      · rw [if_neg h2]
        obtain ⟨ihA, ihB⟩ := ih { stats with errors := stats.errors + 1 }
          (store_tweet env st t s).snd
        refine ⟨?_, ihB⟩
        rw [ihA]
        simp
        omega

/-- C2: Batch stats invariant.  For every input batch,
`store_tweets_batch` returns statistics with
`new_tweets + existing_tweets + errors = total_processed`, and
`total_processed` equals the length of the input list. -/
theorem C2_batch_stats_invariant (env : TimeEnv) (st : StoreState)
    (l : List (TweetData × String)) :
    (store_tweets_batch env st l).fst.new_tweets +
      (store_tweets_batch env st l).fst.existing_tweets +
      (store_tweets_batch env st l).fst.errors =
      (store_tweets_batch env st l).fst.total_processed ∧
    (store_tweets_batch env st l).fst.total_processed = l.length := by
  obtain ⟨hA, hB⟩ := storeTweetsBatchGo_stats env l
    { new_tweets := 0, existing_tweets := 0, errors := 0, total_processed := l.length } st
  unfold store_tweets_batch
  refine ⟨?_, hB⟩
  rw [hA, hB]
  simp

/-! ## Timestamp theorems -/

/-- C6: Timestamp normalization.  An input already in the canonical wire
format passes through unchanged; the legacy Twitter format converts to
the canonical format ("Thu May 15 22:00:22 +0000 2025" yields
"2025-05-15T22:00:22Z"); and when every parser fails — not ISO, regex
mismatch, strptime raises — the current time is substituted. -/
theorem C6_timestamp_normalization :
    (∀ (env : TimeEnv) (ts : String), isCanonicalRFC3339 ts = true →
        convert_timestamp_to_rfc3339 env ts = ts) ∧
    (∀ env : TimeEnv,
        convert_timestamp_to_rfc3339 env "Thu May 15 22:00:22 +0000 2025" =
          "2025-05-15T22:00:22Z") ∧
    (∀ (env : TimeEnv) (ts : String), isCanonicalRFC3339 ts = false →
        twitterMatch ts = none → env.strptimeFb ts = none →
        convert_timestamp_to_rfc3339 env ts = env.nowStr) := by
  refine ⟨?_, ?_, ?_⟩
  · intro env ts h
    unfold convert_timestamp_to_rfc3339
    rw [if_pos h]
  · intro env
    rfl
  · intro env ts h1 h2 h3
    unfold convert_timestamp_to_rfc3339
    rw [if_neg (by rw [h1]; exact Bool.false_ne_true), h2, h3]

/-- C6 witness: the three behaviours at concrete inputs — canonical
pass-through, legacy conversion, and the current-time fallback on an
unparseable string. -/
theorem C6_timestamp_normalization_witness :
    convert_timestamp_to_rfc3339 ⟨fun _ => none, "NOW"⟩ "2025-05-15T22:00:22Z" =
      "2025-05-15T22:00:22Z" ∧
    convert_timestamp_to_rfc3339 ⟨fun _ => none, "NOW"⟩ "Thu May 15 22:00:22 +0000 2025" =
      "2025-05-15T22:00:22Z" ∧
    convert_timestamp_to_rfc3339 ⟨fun _ => none, "NOW"⟩ "not a timestamp" = "NOW" :=
  ⟨C6_timestamp_normalization.1 ⟨fun _ => none, "NOW"⟩ "2025-05-15T22:00:22Z" (by decide),
   C6_timestamp_normalization.2.1 ⟨fun _ => none, "NOW"⟩,
   C6_timestamp_normalization.2.2 ⟨fun _ => none, "NOW"⟩ "not a timestamp"
     (by decide) (by decide) rfl⟩

/-- C9: Unrecognized month word in the legacy shape.  A timestamp
matching the legacy regex whose month word is not one of the twelve
English abbreviations takes the `month_map` default "01" (January) with
the other fields preserved: "Thu Mai 15 22:00:22 +0000 2025" yields
"2025-01-15T22:00:22Z" for every environment, rather than the
current-time fallback. -/
theorem C9_unknown_month_defaults_january (env : TimeEnv) :
    convert_timestamp_to_rfc3339 env "Thu Mai 15 22:00:22 +0000 2025" =
      "2025-01-15T22:00:22Z" := by
  rfl

/-! ## Classifier theorems -/

/-- C7: Classifier fail-safe and closed taxonomy.  `analyze_tweet`
always returns one of the three labels; any invocation failure yields
"neutral"; and a raw completion outside the taxonomy yields "neutral". -/
theorem C7_classifier_failsafe :
    (∀ response : Except Unit (List String),
        analyze_tweet response = "positive" ∨ analyze_tweet response = "neutral" ∨
          analyze_tweet response = "negative") ∧
    (∀ e : Unit, analyze_tweet (Except.error e) = "neutral") ∧
    (∀ (c : String) (rest : List String),
        ¬(pyLower (pyStrip c) = "positive" ∨ pyLower (pyStrip c) = "neutral" ∨
            pyLower (pyStrip c) = "negative") →
        analyze_tweet (Except.ok (c :: rest)) = "neutral") := by
  have hok : ∀ (c : String) (rest : List String),
      analyze_tweet (Except.ok (c :: rest)) =
        if pyLower (pyStrip c) = "positive" ∨ pyLower (pyStrip c) = "neutral" ∨
            pyLower (pyStrip c) = "negative" then pyLower (pyStrip c)
        else "neutral" := fun _ _ => rfl
  refine ⟨?_, fun _ => rfl, ?_⟩
  · intro response
    rcases response with e | choices
    · right; left; rfl
    · rcases choices with _ | ⟨c, rest⟩
      · right; left; rfl
      · rw [hok]
        by_cases h : pyLower (pyStrip c) = "positive" ∨ pyLower (pyStrip c) = "neutral" ∨
            pyLower (pyStrip c) = "negative"
        · rw [if_pos h]
          exact h
        · rw [if_neg h]
          right; left; rfl
  · intro c rest h
    rw [hok, if_neg h]

/-- C7 witness: a simulated invocation failure and an out-of-taxonomy
completion both map to "neutral". -/
theorem C7_classifier_failsafe_witness :
    analyze_tweet (Except.error ()) = "neutral" ∧
    analyze_tweet (Except.ok ["great"]) = "neutral" :=
  ⟨C7_classifier_failsafe.2.1 (),
   C7_classifier_failsafe.2.2 "great" [] (by decide)⟩

/-! ## Alert gate theorems -/

/-- C5: Threshold evaluation.  With fewer than 10 records the result is
non-triggering with the "Not enough data" reason, regardless of positive
count; with 10 or more, `triggered = (positive_count >= threshold)` with
`positive_count` counting records labelled positive among the supplied
sample, and `percentage = positive_count / total * 100` rounded to one
decimal; 10 records with 7 positive at threshold 7 trigger with
percentage 70.0. -/
theorem C5_threshold_evaluation :
    (∀ (s : List SentimentItem) (t : ℤ), s.length < 10 →
        (check_sentiment_threshold s t).triggered = false ∧
        (check_sentiment_threshold s t).reason = some "Not enough data") ∧
    (∀ (s : List SentimentItem) (t : ℤ), 10 ≤ s.length →
        (check_sentiment_threshold s t).triggered =
          decide ((countPositive s : ℤ) ≥ t) ∧
        (check_sentiment_threshold s t).positive_count = some (countPositive s) ∧
        (check_sentiment_threshold s t).total_count = some s.length ∧
        (check_sentiment_threshold s t).percentage =
          some (roundTo1 ((countPositive s : ℚ) / (s.length : ℚ) * 100))) ∧
    ((check_sentiment_threshold
        (List.replicate 7 (SentimentItem.mk (some "positive")) ++
          List.replicate 3 (SentimentItem.mk (some "negative"))) 7).triggered = true ∧
      (check_sentiment_threshold
        (List.replicate 7 (SentimentItem.mk (some "positive")) ++
          List.replicate 3 (SentimentItem.mk (some "negative"))) 7).percentage =
        some 70) := by
  have hge : ∀ (s : List SentimentItem) (t : ℤ), ¬s.length < 10 →
      check_sentiment_threshold s t =
        { triggered := decide ((countPositive s : ℤ) ≥ t), reason := none,
          positive_count := some (countPositive s), total_count := some s.length,
          percentage := some (roundTo1 ((countPositive s : ℚ) / (s.length : ℚ) * 100)) } := by
    intro s t h
    unfold check_sentiment_threshold
    rw [if_neg h]
  refine ⟨?_, ?_, ?_⟩
  · intro s t h
    unfold check_sentiment_threshold
    rw [if_pos h]
    exact ⟨rfl, rfl⟩
  · intro s t h
    rw [hge s t (not_lt.mpr h)]
    exact ⟨rfl, rfl, rfl, rfl⟩
  · have hc : countPositive
        (List.replicate 7 (SentimentItem.mk (some "positive")) ++
          List.replicate 3 (SentimentItem.mk (some "negative"))) = 7 := by decide
    have hl : (List.replicate 7 (SentimentItem.mk (some "positive")) ++
        List.replicate 3 (SentimentItem.mk (some "negative"))).length = 10 := by decide
    rw [hge _ 7 (by rw [hl]; norm_num)]
    constructor
    · dsimp only
      rw [hc]
      decide
    · dsimp only
      rw [hc, hl]
      norm_num [roundTo1, round_eq]

/-- C5 witness: 9 records (all positive) do not trigger and report the
insufficient-data reason; the 7-of-10 sample at threshold 7 triggers
with percentage 70.0. -/
theorem C5_threshold_evaluation_witness :
    (check_sentiment_threshold (List.replicate 9 (SentimentItem.mk (some "positive")))
      7).triggered = false ∧
    (check_sentiment_threshold (List.replicate 9 (SentimentItem.mk (some "positive")))
      7).reason = some "Not enough data" ∧
    (check_sentiment_threshold
      (List.replicate 7 (SentimentItem.mk (some "positive")) ++
        List.replicate 3 (SentimentItem.mk (some "negative"))) 7).triggered = true ∧
    (check_sentiment_threshold
      (List.replicate 7 (SentimentItem.mk (some "positive")) ++
        List.replicate 3 (SentimentItem.mk (some "negative"))) 7).percentage = some 70 :=
  ⟨(C5_threshold_evaluation.1 _ 7 (by decide)).1,
   (C5_threshold_evaluation.1 _ 7 (by decide)).2,
   C5_threshold_evaluation.2.2.1,
   C5_threshold_evaluation.2.2.2⟩

theorem send_notification_gate_closed (cfg : NotifierConfig) (now : ℚ) (tOk : Bool)
    (st : NotifierState) (m kw ch : String)
    (h : now - st.last_notification_time kw < min_interval) :
    send_notification cfg now tOk st m kw ch = (false, st, ⟨[], 0⟩) := by
  unfold send_notification can_send_notification
  rw [if_neg (not_le.mpr h)]

theorem send_notification_lastTime (cfg : NotifierConfig) (now : ℚ) (tOk : Bool)
    (st : NotifierState) (m kw ch : String) (kw' : String) :
    (send_notification cfg now tOk st m kw ch).snd.fst.last_notification_time kw' =
      st.last_notification_time kw' ∨
    (send_notification cfg now tOk st m kw ch).snd.fst.last_notification_time kw' = now := by
  unfold send_notification can_send_notification
  by_cases hg : now - st.last_notification_time kw ≥ min_interval
  · rw [if_pos hg]
    dsimp only
    by_cases ht : (ch == "all" || ch == "telegram" ||
        cfg.notification_method == "all" || cfg.notification_method == "telegram") = true
    · rw [if_pos ht]
      by_cases hk : kw' = kw
      · subst hk
        right
        exact Function.update_same _ _ _
      · left
        exact Function.update_noteq hk _ _
    · rw [if_neg ht]
      by_cases hk : kw' = kw
      · subst hk
        right
        exact Function.update_same _ _ _
      · left
        exact Function.update_noteq hk _ _
  · rw [if_neg hg]
    left
    rfl

theorem send_notification_success_sets (cfg : NotifierConfig) (now : ℚ) (tOk : Bool)
    (st : NotifierState) (m kw ch : String)
    (h : (send_notification cfg now tOk st m kw ch).fst = true) :
    (send_notification cfg now tOk st m kw ch).snd.fst.last_notification_time kw = now := by
  by_cases hg : now - st.last_notification_time kw ≥ min_interval
  · unfold send_notification can_send_notification
    rw [if_pos hg]
    dsimp only
    by_cases ht : (ch == "all" || ch == "telegram" ||
        cfg.notification_method == "all" || cfg.notification_method == "telegram") = true
    · rw [if_pos ht]
      exact Function.update_same _ _ _
    · rw [if_neg ht]
      exact Function.update_same _ _ _
  · rw [send_notification_gate_closed cfg now tOk st m kw ch (not_le.mp hg)] at h
    exact absurd h Bool.false_ne_true

theorem runNotifyCalls_lastTime_ge (cfg : NotifierConfig) (ts : ℚ) (kw : String) :
    ∀ (calls : List NotifyCall) (st : NotifierState),
    (∀ c ∈ calls, ts ≤ c.time) → ts ≤ st.last_notification_time kw →
    ts ≤ (runNotifyCalls cfg st calls).last_notification_time kw := by
  intro calls
  induction calls with
  | nil =>
    intro st _ h
    exact h
  | cons c rest ih =>
    intro st hts h
    have hstep := send_notification_lastTime cfg c.time c.transportOk st c.message
      c.keyword c.channel kw
    refine ih _ (fun c' hc' => hts c' (List.mem_cons_of_mem c hc')) ?_
    rcases hstep with he | he
    · rw [he]
      exact h
    · rw [he]
      exact hts c (List.mem_cons_self c rest)

/-- C4: Cooldown enforcement.  If a `send_notification` call for a
keyword succeeds at time `t1`, then after any further calls (at times
not before `t1`), a call for the same keyword at a time `t2` within the
cooldown window (`t2 - t1 < 3600`) returns false with no console output
and no transport attempt, and leaves the notifier state exactly as it
was — so no two alerts for the same keyword are emitted with an
interval below the cooldown. -/
theorem C4_cooldown_enforcement (cfg : NotifierConfig) (st0 : NotifierState)
    (t1 : ℚ) (ok1 : Bool) (m1 kw ch1 : String) (mid : List NotifyCall)
    (t2 : ℚ) (ok2 : Bool) (m2 ch2 : String)
    (hfirst : (send_notification cfg t1 ok1 st0 m1 kw ch1).fst = true)
    (hmid : ∀ c ∈ mid, t1 ≤ c.time)
    (hwin : t2 - t1 < min_interval) :
    send_notification cfg t2 ok2
        (runNotifyCalls cfg (send_notification cfg t1 ok1 st0 m1 kw ch1).snd.fst mid)
        m2 kw ch2 =
      (false,
        runNotifyCalls cfg (send_notification cfg t1 ok1 st0 m1 kw ch1).snd.fst mid,
        ⟨[], 0⟩) := by
  have h1 : t1 ≤ (send_notification cfg t1 ok1 st0 m1 kw ch1).snd.fst.last_notification_time
      kw :=
    le_of_eq (send_notification_success_sets cfg t1 ok1 st0 m1 kw ch1 hfirst).symm
  have h2 : t1 ≤ (runNotifyCalls cfg
      (send_notification cfg t1 ok1 st0 m1 kw ch1).snd.fst mid).last_notification_time kw :=
    runNotifyCalls_lastTime_ge cfg t1 kw mid _ hmid h1
  exact send_notification_gate_closed cfg t2 ok2 _ m2 kw ch2 (by linarith)

/-- C4 witness: from the initial state, a successful send at time 4000
followed by a call for the same keyword at time 5000 (inside the 3600 s
window) returns false. -/
theorem C4_cooldown_enforcement_witness :
    (send_notification ⟨"console", false⟩ 5000 true
      (send_notification ⟨"console", false⟩ 4000 true ⟨fun _ => 0⟩ "m1" "BTC" "all").snd.fst
      "m2" "BTC" "all").fst = false := by
  have hfirst : (send_notification ⟨"console", false⟩ 4000 true ⟨fun _ => 0⟩ "m1" "BTC"
      "all").fst = true := by
    unfold send_notification can_send_notification
    rw [if_pos (by show (4000 : ℚ) - 0 ≥ 3600; norm_num)]
    rfl
  have h := C4_cooldown_enforcement ⟨"console", false⟩ ⟨fun _ => 0⟩ 4000 true "m1" "BTC"
    "all" [] 5000 true "m2" "all" hfirst (by intro c hc; cases hc)
    (by norm_num [min_interval])
  exact congrArg Prod.fst h

/-- C10: Channel union.  `send_notification` delivers on the union of
the requested channel and the configured `notification_method`: with the
method configured to "console" and the call requesting "telegram", once
the cooldown gate passes the console notification is still emitted and
the call returns true. -/
theorem C10_channel_union (cfg : NotifierConfig) (now : ℚ) (tOk : Bool)
    (st : NotifierState) (m kw : String)
    (hmethod : cfg.notification_method = "console")
    (hgate : now - st.last_notification_time kw ≥ min_interval) :
    (send_notification cfg now tOk st m kw "telegram").fst = true ∧
    (send_notification cfg now tOk st m kw "telegram").snd.snd.console = [m] := by
  obtain ⟨method, creds⟩ := cfg
  simp only at hmethod
  subst hmethod
  unfold send_notification can_send_notification
  rw [if_pos hgate]
  exact ⟨rfl, rfl⟩

/-- C10 witness: configured method "console", no Telegram credentials,
requested channel "telegram": the console message is emitted and the
call returns true. -/
theorem C10_channel_union_witness :
    (send_notification ⟨"console", false⟩ 4000 false ⟨fun _ => 0⟩ "msg" "BTC"
      "telegram").fst = true ∧
    (send_notification ⟨"console", false⟩ 4000 false ⟨fun _ => 0⟩ "msg" "BTC"
      "telegram").snd.snd.console = ["msg"] :=
  C10_channel_union ⟨"console", false⟩ 4000 false ⟨fun _ => 0⟩ "msg" "BTC" rfl
    (by show (4000 : ℚ) - 0 ≥ 3600; norm_num)

/-! ## Coordinator theorems -/

theorem monitoring_job_run (env : CycleEnv) :
    (monitoring_job env false).fst = false ∧ (monitoring_job env false).snd.fetchCalls = 1 := by
  rcases hf : env.fetchResult with e | tweets
  · constructor <;> simp [monitoring_job, hf]
  · cases he : tweets.isEmpty
    · rcases ha : env.analyzeResult tweets with e2 | analyzed
      · constructor <;> simp [monitoring_job, hf, he, ha]
      · rcases hs : env.storeResult analyzed with e3 | stats
        · constructor <;> simp [monitoring_job, hf, he, ha, hs]
        · constructor <;> simp [monitoring_job, hf, he, ha, hs]
    · constructor <;> simp [monitoring_job, hf, he]

/-- C3: Ingestion lock exclusivity and guaranteed release.  Invoking the
monitoring job while the lock is held returns immediately with zero
fetch, classify, or store calls and the lock still held by its owner;
on every exit path of a cycle that did acquire the lock — fetch failure,
the early return on zero posts, classify or store failure, or normal
completion — the lock ends up released; and a subsequent cycle starting
from that released lock proceeds (its fetch runs). -/
theorem C3_lock_exclusivity_and_release (env : CycleEnv) :
    monitoring_job env true = (true, ⟨0, 0, 0⟩) ∧
    (monitoring_job env false).fst = false ∧
    (∀ env2 : CycleEnv,
        (monitoring_job env2 (monitoring_job env false).fst).snd.fetchCalls = 1) := by
  refine ⟨rfl, (monitoring_job_run env).1, ?_⟩
  intro env2
  rw [(monitoring_job_run env).1]
  exact (monitoring_job_run env2).2

/-! ## Fetch adapter theorems -/

theorem processBatchList_append (fetch : String → Option String → List TweetData)
    (l1 l2 : List String) : ∀ st : MonitorState,
    processBatchList fetch st (l1 ++ l2) =
      ((processBatchList fetch (processBatchList fetch st l1).fst l2).fst,
        (processBatchList fetch st l1).snd ++
          (processBatchList fetch (processBatchList fetch st l1).fst l2).snd) := by
  induction l1 with
  | nil =>
    intro st
    simp [processBatchList]
  | cons a rest ih =>
    intro st
    simp only [List.cons_append, processBatchList, List.append_eq]
    rw [ih]
    simp [List.append_assoc]

theorem processAccountsAux_eq (fetch : String → Option String → List TweetData)
    (bs1 : Nat) : ∀ (accounts : List String) (st : MonitorState),
    processAccountsAux fetch bs1 st accounts = processBatchList fetch st accounts := by
  have H : ∀ (n : Nat) (accounts : List String), accounts.length ≤ n →
      ∀ st : MonitorState,
      processAccountsAux fetch bs1 st accounts = processBatchList fetch st accounts := by
    intro n
    induction n with
    | zero =>
      intro accounts hlen st
      have he : accounts = [] := List.eq_nil_of_length_eq_zero (Nat.le_zero.mp hlen)
      subst he
      unfold processAccountsAux
      simp [processBatchList]
    | succ n ih =>
      intro accounts hlen st
      by_cases h : accounts = []
      · subst h
        unfold processAccountsAux
        simp [processBatchList]
      · unfold processAccountsAux
        rw [dif_neg h]
        dsimp only
        have hdrop : (accounts.drop (bs1 + 1)).length ≤ n := by
          rw [List.length_drop]
          have hpos : 0 < accounts.length := List.length_pos.mpr h
          omega
        rw [ih _ hdrop]
        conv_rhs => rw [← List.take_append_drop (bs1 + 1) accounts]
        rw [processBatchList_append]
  intro accounts st
  exact H accounts.length accounts le_rfl st

theorem processAccount_preserve (fetch : String → Option String → List TweetData)
    (st : MonitorState) (b a : String) (hne : a ≠ b) :
    (processAccount fetch st b).fst.last_tweet_ids a = st.last_tweet_ids a := by
  rcases h : fetch b (st.last_tweet_ids b) with _ | ⟨t, ts⟩
  · simp [processAccount, h]
  · simp [processAccount, h, Function.update_noteq hne]

theorem processBatchList_not_mem (fetch : String → Option String → List TweetData) :
    ∀ (l : List String) (st : MonitorState) (a : String), a ∉ l →
    (processBatchList fetch st l).fst.last_tweet_ids a = st.last_tweet_ids a := by
  intro l
  induction l with
  | nil =>
    intro st a _
    rfl
  | cons b rest ih =>
    intro st a ha
    have hab : a ≠ b := fun he => ha (he ▸ List.mem_cons_self b rest)
    have harest : a ∉ rest := fun hm => ha (List.mem_cons_of_mem b hm)
    simp only [processBatchList]
    rw [ih _ a harest]
    exact processAccount_preserve fetch st b a hab

theorem processBatchList_cursor (fetch : String → Option String → List TweetData) :
    ∀ (accounts : List String) (st : MonitorState) (a : String),
    accounts.Nodup → a ∈ accounts →
    (processBatchList fetch st accounts).fst.last_tweet_ids a =
      (match fetch a (st.last_tweet_ids a) with
        | [] => st.last_tweet_ids a
        | t :: _ => some t.id) := by
  intro accounts
  induction accounts with
  | nil =>
    intro st a _ ha
    cases ha
  | cons b rest ih =>
    intro st a hnd ha
    rcases List.nodup_cons.mp hnd with ⟨hb, hrest⟩
    simp only [processBatchList]
    rcases List.mem_cons.mp ha with heq | hmem
    · subst heq
      rw [processBatchList_not_mem fetch rest _ a hb]
      rcases hf : fetch a (st.last_tweet_ids a) with _ | ⟨t, ts⟩
      · simp [processAccount, hf]
      · simp [processAccount, hf, Function.update_same]
    · have hab : a ≠ b := fun he => hb (he ▸ hmem)
      rw [ih _ a hrest hmem]
      rw [processAccount_preserve fetch st b a hab]

/-- C8: Cursor update rule.  After one run of `process_accounts` over
distinct monitored accounts, each account's cursor equals the id of the
first (most recent) post its fetch returned, and is unchanged when the
fetch returned no posts (including the failure case, which surfaces as
an empty list). -/
theorem C8_cursor_update (fetch : String → Option String → List TweetData)
    (st : MonitorState) (accounts : List String) (hnd : accounts.Nodup)
    (a : String) (ha : a ∈ accounts) :
    (process_accounts fetch st accounts).fst.last_tweet_ids a =
      (match fetch a (st.last_tweet_ids a) with
        | [] => st.last_tweet_ids a
        | t :: _ => some t.id) := by
  unfold process_accounts
  rw [processAccountsAux_eq]
  exact processBatchList_cursor fetch accounts st a hnd ha

/-- C8 witness: two accounts, of which only "alice" has a matching post —
after the run, alice's cursor is the returned post id and bob's cursor
is unchanged (none). -/
theorem C8_cursor_update_witness :
    (process_accounts
      (fun acct _ => if acct = "alice" then
        [⟨"42", "btc rally", ⟨"alice", "Alice"⟩, "Thu May 15 22:00:22 +0000 2025", 1, 2⟩]
        else [])
      ⟨fun _ => none⟩ ["alice", "bob"]).fst.last_tweet_ids "alice" = some "42" ∧
    (process_accounts
      (fun acct _ => if acct = "alice" then
        [⟨"42", "btc rally", ⟨"alice", "Alice"⟩, "Thu May 15 22:00:22 +0000 2025", 1, 2⟩]
        else [])
      ⟨fun _ => none⟩ ["alice", "bob"]).fst.last_tweet_ids "bob" = none := by
  constructor
  · have h := C8_cursor_update
      (fun acct _ => if acct = "alice" then
        [⟨"42", "btc rally", ⟨"alice", "Alice"⟩, "Thu May 15 22:00:22 +0000 2025", 1, 2⟩]
        else [])
      ⟨fun _ => none⟩ ["alice", "bob"] (by decide) "alice" (by decide)
    exact h
  · have h := C8_cursor_update
      (fun acct _ => if acct = "alice" then
        [⟨"42", "btc rally", ⟨"alice", "Alice"⟩, "Thu May 15 22:00:22 +0000 2025", 1, 2⟩]
        else [])
      ⟨fun _ => none⟩ ["alice", "bob"] (by decide) "bob" (by decide)
    exact h

end TwitterSentiment
